import Mathlib

/-!
# Verification of the Metasploit MCP server dispatch layer

Shallow embedding of `src/metasploit_mcp_server.py` (772 lines): the tool
catalogue, the `handle_call_tool` dispatcher with its 30-second
`asyncio.wait_for` wrapper, the twelve tool handlers, and the lazy
`get_msf_client` connection holder.  Python runtime behaviour (dict lookup,
`str.lower`, substring `in`, slicing, `str()` of an int, UTF-8 `encode`)
is embedded explicitly; handlers that interact with the remote RPC client
are modelled as trace-producing functions, with the remote side's replies
taken as parameters.
-/

namespace MsfMcp

/-- Scalar values in a Python argument dictionary / JSON result. -/
inductive Scalar where
  | sNull
  | sBool (b : Bool)
  | sInt (n : Int)
  | sStr (s : String)
  deriving DecidableEq, Repr

/-- Dynamically typed values in a Python argument dictionary / JSON result
(the subset the server manipulates: scalars, plus one level of object
nesting for `options` maps and shaped results — the spec notes no nested
object validation beyond one level). -/
inductive JValue where
  | jNull
  | jBool (b : Bool)
  | jInt (n : Int)
  | jStr (s : String)
  | jObj (fields : List (String × Scalar))
  deriving DecidableEq, Repr

/-- `v` is a JSON string (used to state that an id is echoed as a string,
not as the caller's integer). -/
def JValue.isStr : JValue → Bool
  | .jStr _ => true
  | _ => false

/-- `v` is a JSON integer. -/
def JValue.isInt : JValue → Bool
  | .jInt _ => true
  | _ => false

/-- A caller-supplied argument bag: a Python dict, embedded as an
association list (first binding wins, as dict keys are unique). -/
abbrev Bag := List (String × JValue)

/-- `args[k]` as an `Option`: `some v` when the key is present,
`none` when Python would raise `KeyError(k)`. -/
def Bag.find (b : Bag) (k : String) : Option JValue :=
  (b.find? (fun p => p.1 == k)).map (·.2)

/-- `args.get(k, d)` — lookup with default. -/
def Bag.getD (b : Bag) (k : String) (d : JValue) : JValue :=
  (Bag.find b k).getD d

/-! ## Connection Holder — `get_msf_client` (source lines 50–65)

The global `msf_client` starts as `None`.  On a call with `msf_client is
None` the code attempts `MsfRpcClient(...)`; on failure it re-raises
without assigning the global, on success it assigns and returns it.  Once
the global is non-`None` it is returned unconditionally.  The state is the
global (`Option Handle`, handles as `Nat`); the outcome of a fresh
connection attempt, which depends on the network, is a parameter. -/

/-- Outcome of one `MsfRpcClient(...)` construction attempt. -/
inductive ConnectAttempt where
  | ok (h : Nat)
  | err (msg : String)
  deriving DecidableEq, Repr

/-- One call to `get_msf_client`: given the current global and what a fresh
connection attempt would yield, return (result, new global).  `Except.error`
is the re-raised exception. -/
def get_msf_client (global_ : Option Nat) (attempt : ConnectAttempt) :
    Except String Nat × Option Nat :=
  match global_ with
  | some h => (.ok h, some h)
  | none =>
    match attempt with
    | .ok h => (.ok h, some h)
    | .err m => (.error m, none)

/-- A whole process lifetime: fold `get_msf_client` over a sequence of calls,
collecting each call's result. -/
def holderRun (global_ : Option Nat) : List ConnectAttempt →
    List (Except String Nat) × Option Nat
  | [] => ([], global_)
  | a :: rest =>
    let (r, g) := get_msf_client global_ a
    let (rs, g') := holderRun g rest
    (r :: rs, g')

/-! ## Claims about `stop_job` (lines 697–713) and `interact_session`
(lines 556–583)

`stop_job` does `job_id = str(args["job_id"])`, then calls
`client.jobs.stop(job_id)` with that string, and builds
`{"status": "success", "job_id": job_id, "result": result}`.
`interact_session` does `session_id = str(args["session_id"])`, fetches the
session by that string, writes the command, sleeps, reads, and builds
`{"session_id": session_id, "command": command, "output": output}`.
Python `str()` of an int is its decimal form, embedded as `toString : Int →
String` (identical on negatives: "-5"). -/

/-- Trace and result of a successful `stop_job` call on integer id `jobId`;
`remoteReply` is whatever `client.jobs.stop` returned. -/
structure StopJobCall where
  remoteArg : String
  response : List (String × JValue)
  deriving DecidableEq, Repr

def stop_job (jobId : Int) (remoteReply : JValue) : StopJobCall :=
  let s := toString jobId
  { remoteArg := s
    response := [("status", .jStr "success"), ("job_id", .jStr s), ("result", remoteReply)] }

/-- Trace and result of a successful `interact_session` call. -/
structure InteractCall where
  remoteSessionArg : String
  writtenCommand : String
  response : List (String × JValue)
  deriving DecidableEq, Repr

def interact_session (sessionId : Int) (command : String) (output : String) :
    InteractCall :=
  let s := toString sessionId
  { remoteSessionArg := s
    writtenCommand := command
    response := [("session_id", .jStr s), ("command", .jStr command),
                 ("output", .jStr output)] }

/-! ## `list_exploits` (lines 355–379) and `list_payloads` (lines 381–410)

Python strings are embedded as `List Char` so that `str.lower()` and the
substring test `in` compute in the kernel.  `_get_exploits` fetches
`client.modules.exploits`, filters by `search_term.lower() in e.lower()`
when `search_term` is truthy (non-empty), and slices `[:limit]`; the list
comprehension and the slice allocate fresh lists, the fetched listing is
never mutated, so the client-side listing after the call is the input
listing.  `_get_payloads` applies the platform filter then the arch filter
the same way. -/

/-- A Python `str`, embedded as its character list. -/
abbrev PyStr := List Char

/-- Python `s.lower()` (ASCII case mapping, as module names are ASCII). -/
def pyLower (s : PyStr) : PyStr := s.map Char.toLower

/-- Python `needle.lower() in hay.lower()` — case-insensitive contiguous
substring test. -/
def pyIn (needle hay : PyStr) : Bool :=
  decide (pyLower needle <:+: pyLower hay)

/-- The `if term: xs = [x for x in xs if term.lower() in x.lower()]` idiom
shared by both listing handlers: filter only when the term is truthy. -/
def pyFilter (term : PyStr) (l : List PyStr) : List PyStr :=
  if term.isEmpty then l else l.filter (fun e => pyIn term e)

/-- Result of a successful `list_exploits` call. -/
structure ListExploitsCall where
  names : List PyStr
  total_found : Nat
  search_echo : PyStr
  listingAfter : List PyStr
  deriving DecidableEq, Repr

def list_exploits (listing : List PyStr) (search : PyStr) (lim : Nat) :
    ListExploitsCall :=
  let names := (pyFilter search listing).take lim
  { names := names
    total_found := names.length
    search_echo := if search.isEmpty then "none".toList else search
    listingAfter := listing }

/-- Result of a successful `list_payloads` call. -/
structure ListPayloadsCall where
  names : List PyStr
  total_found : Nat
  listingAfter : List PyStr
  deriving DecidableEq, Repr

def list_payloads (listing : List PyStr) (platform arch : PyStr) (lim : Nat) :
    ListPayloadsCall :=
  let names := (pyFilter arch (pyFilter platform listing)).take lim
  { names := names
    total_found := names.length
    listingAfter := listing }

/-! ## `run_exploit` (lines 451–502) and `start_handler` (lines 637–676)

Both handlers drive the remote control plane through a sequence of module
interactions, embedded here as event traces in source order.
`_execute_exploit`: select exploit; set `RHOSTS` only when
`exploit_name != "multi/handler"`; set `LHOST`, `LPORT` on the exploit;
apply the caller's `options` dict in insertion order to the exploit;
select the payload; set `LHOST`, `LPORT` on the payload; execute with the
payload attached.  `_start_handler`: select `exploit/multi/handler`;
select the payload; set `LHOST`, `LPORT` on the payload (never on the
handler module); apply the caller's `options` to the handler module;
execute with the payload attached. -/

/-- One interaction with the remote control plane. -/
inductive MEvent where
  | use (category modName : String)
  | setOpt (category modName key : String) (v : Scalar)
  | exec (modName : String) (payloadAttached : Option String)
  deriving DecidableEq, Repr

/-- Trace of `_execute_exploit` (lines 462–484), in source order. -/
def run_exploit_trace (exploit_name target payload_name : String)
    (lhost lport : Scalar) (options : List (String × Scalar)) : List MEvent :=
  [.use "exploit" exploit_name]
  ++ (if exploit_name = "multi/handler" then []
      else [.setOpt "exploit" exploit_name "RHOSTS" (.sStr target)])
  ++ [.setOpt "exploit" exploit_name "LHOST" lhost,
      .setOpt "exploit" exploit_name "LPORT" lport]
  ++ options.map (fun kv => .setOpt "exploit" exploit_name kv.1 kv.2)
  ++ [.use "payload" payload_name,
      .setOpt "payload" payload_name "LHOST" lhost,
      .setOpt "payload" payload_name "LPORT" lport]
  ++ [.exec exploit_name (some payload_name)]

/-- Trace of `_start_handler` (lines 646–661), in source order. -/
def start_handler_trace (payload_type : String) (lhost lport : Scalar)
    (options : List (String × Scalar)) : List MEvent :=
  [.use "exploit" "multi/handler",
   .use "payload" payload_type,
   .setOpt "payload" payload_type "LHOST" lhost,
   .setOpt "payload" payload_type "LPORT" lport]
  ++ options.map (fun kv => .setOpt "exploit" "multi/handler" kv.1 kv.2)
  ++ [.exec "multi/handler" (some payload_type)]

/-- The event is an `RHOSTS` option assignment (on any module). -/
def MEvent.isRhostsSet : MEvent → Bool
  | .setOpt _ _ key _ => key == "RHOSTS"
  | _ => false

/-- Number of target-host (`RHOSTS`) assignments in a trace. -/
def rhostsCount (t : List MEvent) : Nat :=
  (t.filter MEvent.isRhostsSet).length

/-- The event is an option assignment of `key` on module
`(category, modName)` (with any value). -/
def MEvent.matchesSet (category modName key : String) : MEvent → Bool
  | .setOpt c m k _ => c == category && m == modName && k == key
  | _ => false

/-- The trace contains an option assignment of `key` on module
`(category, modName)` with some value. -/
def setsKeyOn (t : List MEvent) (category modName key : String) : Bool :=
  t.any (MEvent.matchesSet category modName key)

/-! ## `generate_payload` (lines 585–635)

`_generate_payload` returns `payload.payload_generate(fmt=format_type)` —
dynamically either a `bytes` object or a `str`.  The handler then builds
`filename = f"payload_{int(time.time())}.{format_type}"`, joins it under
`/tmp`, writes `payload_data.encode()` when the value is a `str` and the
raw bytes otherwise, and reports `"size": len(payload_data)`.  Python
`len` of `bytes` is the byte count, but `len` of `str` is the number of
characters, while `str.encode()` writes the UTF-8 encoding. -/

/-- A dynamically typed `payload_generate` result: `bytes` or `str`. -/
inductive PData where
  | bytes (bs : List Nat)
  | str (s : PyStr)
  deriving DecidableEq, Repr

/-- UTF-8 encoding of one code point (what `str.encode()` emits per
character). -/
def utf8Bytes (c : Char) : List Nat :=
  let n := c.toNat
  if n < 0x80 then [n]
  else if n < 0x800 then [0xC0 + n / 64, 0x80 + n % 64]
  else if n < 0x10000 then
    [0xE0 + n / 4096, 0x80 + (n / 64) % 64, 0x80 + n % 64]
  else
    [0xF0 + n / 262144, 0x80 + (n / 4096) % 64, 0x80 + (n / 64) % 64,
     0x80 + n % 64]

/-- Python `len(payload_data)`: byte count for `bytes`, character count
for `str`. -/
def pyLen : PData → Nat
  | .bytes bs => bs.length
  | .str s => s.length

/-- The bytes the handler writes to the file: raw bytes, or the UTF-8
encoding (`payload_data.encode()`) for a `str`. -/
def fileBytes : PData → List Nat
  | .bytes bs => bs
  | .str s => (s.map utf8Bytes).flatten

/-- Result of a successful `generate_payload` call at unix time `now`. -/
structure GenPayloadCall where
  size : Nat
  saved_to : String
  fileContents : List Nat
  deriving DecidableEq, Repr

def generate_payload (now : Nat) (format_type : String) (payload_data : PData) :
    GenPayloadCall :=
  let filename := "payload_" ++ toString now ++ "." ++ format_type
  { size := pyLen payload_data
    saved_to := "/tmp/" ++ filename
    fileContents := fileBytes payload_data }

/-! ## The dispatcher — `handle_call_tool` (lines 309–352)

`handle_call_tool(name, arguments)` runs, inside one `try`:
`client = get_msf_client()` **first**, then an if/elif chain on `name`
calling `asyncio.wait_for(handler(client, arguments), timeout=30)` for each
of the twelve tools, with a final else producing
`[TextContent(text=f"Unknown tool: {name}")]`.  `except asyncio.TimeoutError`
yields `f"Error: Tool {name} timed out after {timeout} seconds"` and
`except Exception as e` yields `f"Error: {str(e)}"`.  Each handler extracts
its required fields with `args["k"]` (raising `KeyError('k')`, whose `str`
is `'k'` with quotes) *before* its own `try`, and wraps all client
interaction in that inner `try`, whose `except` produces a
handler-specific `"Error <context>: {e}"` block. -/

/-- The twelve tool names of the catalogue, in declaration order
(`handle_list_tools`, lines 70–307; the dispatch chain tests the same
names). -/
def toolNames : List String :=
  ["list_exploits", "list_payloads", "get_exploit_info", "run_exploit",
   "run_auxiliary", "list_sessions", "interact_session", "generate_payload",
   "start_handler", "list_jobs", "stop_job", "run_post_module"]

/-- Required fields of each tool in the order the handler body extracts
them with `args["k"]` (fields read via `args.get` have defaults and are
not required). -/
def requiredFields : String → List String
  | "get_exploit_info" => ["exploit_name"]
  | "run_exploit" => ["exploit_name", "target", "payload", "lhost", "lport"]
  | "run_auxiliary" => ["module_name", "options"]
  | "interact_session" => ["session_id", "command"]
  | "generate_payload" => ["payload_type", "lhost", "lport"]
  | "start_handler" => ["payload_type", "lhost", "lport"]
  | "stop_job" => ["job_id"]
  | "run_post_module" => ["module_name", "session_id"]
  | _ => []

/-- The first required field absent from the bag — the key of the
`KeyError` Python raises, if any. -/
def firstMissing (name : String) (args : Bag) : Option String :=
  (requiredFields name).find? (fun f => (Bag.find args f).isNone)

/-- The handler-specific message head of each handler's own
`except Exception` clause (exact f-string text from the source). -/
def handlerCatchText : String → String
  | "list_exploits" => "Error listing exploits: "
  | "list_payloads" => "Error listing payloads: "
  | "get_exploit_info" => "Error getting exploit info: "
  | "run_exploit" => "Error running exploit: "
  | "run_auxiliary" => "Error running auxiliary module: "
  | "list_sessions" => "Error listing sessions: "
  | "interact_session" => "Error interacting with session: "
  | "generate_payload" => "Error generating payload: "
  | "start_handler" => "Error starting handler: "
  | "list_jobs" => "Error listing jobs: "
  | "stop_job" => "Error stopping job: "
  | "run_post_module" => "Error running post module: "
  | _ => ""

/-- What the handler's remote work does in this call: all client
interaction succeeds (yielding the handler's shaped single text block
`resultText`), or some client call raises an exception with message
`msg` inside the handler's inner `try`. -/
inductive RemoteBehavior where
  | succeeds (resultText : String)
  | raises (msg : String)
  deriving DecidableEq, Repr

/-- Observable outcome of one `handle_call_tool` invocation. -/
structure CallOutcome where
  blocks : List String
  touchedHolder : Bool
  handlerEntered : Bool
  remoteAttempted : Bool
  deriving DecidableEq, Repr

/-- One `handle_call_tool(name, args)` invocation.  `conn` is what
`get_msf_client()` does at this call (it is the first statement of the
outer `try`, so the holder is touched unconditionally).  A raised
connection failure is caught by the outer `except Exception` as
`"Error: <msg>"`.  With a connection, an unknown name falls to the final
else without entering any handler; a known name enters the handler, whose
field extraction raises `KeyError('<f>')` on the first missing required
field — escaping the handler, caught by the outer `except Exception` as
`"Error: '<f>'"` — and otherwise performs its remote interaction, whose
failure is caught by the handler's inner `except` as
`"Error <context>: <msg>"`. -/
def handle_call_tool (conn : Except String Nat) (name : String) (args : Bag)
    (remote : RemoteBehavior) : CallOutcome :=
  match conn with
  | .error m =>
    { blocks := ["Error: " ++ m], touchedHolder := true,
      handlerEntered := false, remoteAttempted := false }
  | .ok _ =>
    if toolNames.contains name then
      match firstMissing name args with
      | some f =>
        { blocks := ["Error: '" ++ f ++ "'"], touchedHolder := true,
          handlerEntered := true, remoteAttempted := false }
      | none =>
        match remote with
        | .succeeds r =>
          { blocks := [r], touchedHolder := true,
            handlerEntered := true, remoteAttempted := true }
        | .raises m =>
          { blocks := [handlerCatchText name ++ m], touchedHolder := true,
            handlerEntered := true, remoteAttempted := true }
    else
      { blocks := ["Unknown tool: " ++ name], touchedHolder := true,
        handlerEntered := false, remoteAttempted := false }

/-! ## The timeout race — `asyncio.wait_for(..., timeout=30)`

Every dispatch arm awaits its handler under `asyncio.wait_for` with a
30-second deadline.  That deadline is enforced by the event loop: it can
only fire while the loop is free, i.e. while the handler coroutine is
suspended at an `await`.  Handlers that wrap their blocking client calls
in `asyncio.to_thread` suspend while the worker thread runs, so a hung
remote call is abandoned at the deadline and the `except
asyncio.TimeoutError` arm returns the timeout text; handlers that invoke
the client synchronously block the loop itself, so a hung remote call
there prevents the timer from ever firing and the dispatcher never
returns. -/

/-- One blocking remote interaction of a handler body, classified by how
the source invokes it. -/
inductive RemoteStep where
  | toThread
  | directCall
  deriving DecidableEq, Repr

/-- The blocking remote interactions of each handler, in source order and
with their invocation style.  Nine handlers put all client work inside a
single `asyncio.to_thread(...)`.  `interact_session` (lines 556–583) calls
`client.sessions.session`, `session.write` and — after an
`asyncio.sleep(2)` — `session.read` directly on the event loop;
`stop_job` (line 702) calls `client.jobs.stop` directly; `run_post_module`
(lines 722–733) calls `client.modules.use` and `post.execute` directly. -/
def handlerRemoteSteps : String → List RemoteStep
  | "list_exploits" => [.toThread]
  | "list_payloads" => [.toThread]
  | "get_exploit_info" => [.toThread]
  | "run_exploit" => [.toThread]
  | "run_auxiliary" => [.toThread]
  | "list_sessions" => [.toThread]
  | "interact_session" => [.directCall, .directCall, .directCall]
  | "generate_payload" => [.toThread]
  | "start_handler" => [.toThread]
  | "list_jobs" => [.toThread]
  | "stop_job" => [.directCall]
  | "run_post_module" => [.directCall, .directCall]
  | _ => []

/-- All of the handler's blocking remote work runs on a worker thread. -/
def offloadsRemoteWork (name : String) : Bool :=
  (handlerRemoteSteps name).all (fun s => s == RemoteStep.toThread)

/-- The fixed deadline of the Execution Wrapper (line 314). -/
def timeoutSeconds : Nat := 30

/-- The timeout error text (line 349). -/
def timeoutMessage (name : String) : String :=
  "Error: Tool " ++ name ++ " timed out after " ++ toString timeoutSeconds
    ++ " seconds"

/-- Outcome of the dispatcher when the handler's remote call at step
`st` hangs forever.  `some blocks`: the dispatcher returns `blocks` once
the 30-second deadline fires and the event loop is immediately free for
the next request.  `none`: the event loop is stuck inside a synchronous
client call — `asyncio.wait_for`'s timer needs the loop and never fires,
so the dispatcher never returns. -/
def hangOutcome (name : String) (st : RemoteStep) : Option (List String) :=
  match st with
  | .toThread => some [timeoutMessage name]
  | .directCall => none

/-! # Theorems -/

/-! ## Claim C9 -/

/-- **C9.** The Connection Holder's state machine: a failed first-use attempt
surfaces the failure and memoizes nothing (the next call retries from
scratch, i.e. the global is still `none`); a successful attempt memoizes the
handle; once the global holds a handle, every later call returns that same
handle and never consults a fresh attempt, for the rest of the run. -/
theorem C9_connection_holder_state_machine :
    (∀ m : String, get_msf_client none (.err m) = (.error m, none)) ∧
    (∀ h : Nat, get_msf_client none (.ok h) = (.ok h, some h)) ∧
    (∀ (h : Nat) (a : ConnectAttempt), get_msf_client (some h) a = (.ok h, some h)) ∧
    (∀ (h : Nat) (as : List ConnectAttempt),
      holderRun (some h) as = (as.map (fun _ => .ok h), some h)) := by
  refine ⟨fun m => rfl, fun h => rfl, fun h a => rfl, fun h as => ?_⟩
  induction as with
  | nil => rfl
  | cons a rest ih => simp [holderRun, get_msf_client, ih]

/-- An empty (falsy) term filters nothing, and the empty string is a
substring of everything, so `pyIn` still holds. -/
theorem pyIn_of_isEmpty (term hay : PyStr) (h : term.isEmpty = true) :
    pyIn term hay = true := by
  cases term with
  | nil => exact decide_eq_true (List.nil_infix)
  | cons a as => simp [List.isEmpty] at h

/-- Anything surviving `pyFilter term` was in the input and contains the
term case-insensitively. -/
theorem mem_pyFilter {term : PyStr} {l : List PyStr} {x : PyStr}
    (hx : x ∈ pyFilter term l) : x ∈ l ∧ pyIn term x = true := by
  unfold pyFilter at hx
  by_cases h : term.isEmpty
  · rw [if_pos h] at hx
    exact ⟨hx, pyIn_of_isEmpty _ _ h⟩
  · rw [if_neg h] at hx
    exact ⟨List.mem_of_mem_filter hx, List.of_mem_filter hx⟩

/-- `pyFilter` is order-preserving and removes only: its output is a
sublist of its input. -/
theorem pyFilter_sublist (term : PyStr) (l : List PyStr) :
    (pyFilter term l).Sublist l := by
  unfold pyFilter
  by_cases h : term.isEmpty
  · rw [if_pos h]
  · rw [if_neg h]
    exact List.filter_sublist l

/-! ## Claim C7 -/

/-- **C7.** For every fetched listing, search term and limit:
`list_exploits` returns at most `limit` names, every returned name contains
the search term case-insensitively, `total_found` equals the count of
returned names, the filter preserves the listing's relative order (the
result is a sublist of the listing), and the underlying listing is not
mutated; `list_payloads` satisfies the same with its platform/arch
filters. -/
theorem C7_listing_filters :
    (∀ (listing : List PyStr) (search : PyStr) (lim : Nat),
      (list_exploits listing search lim).names.length ≤ lim ∧
      (∀ e ∈ (list_exploits listing search lim).names, pyIn search e = true) ∧
      (list_exploits listing search lim).names.Sublist listing ∧
      (list_exploits listing search lim).total_found
        = (list_exploits listing search lim).names.length ∧
      (list_exploits listing search lim).listingAfter = listing) ∧
    (∀ (listing : List PyStr) (platform arch : PyStr) (lim : Nat),
      (list_payloads listing platform arch lim).names.length ≤ lim ∧
      (∀ p ∈ (list_payloads listing platform arch lim).names,
        pyIn platform p = true ∧ pyIn arch p = true) ∧
      (list_payloads listing platform arch lim).names.Sublist listing ∧
      (list_payloads listing platform arch lim).total_found
        = (list_payloads listing platform arch lim).names.length ∧
      (list_payloads listing platform arch lim).listingAfter = listing) := by
  constructor
  · intro listing search lim
    refine ⟨List.length_take_le lim _, ?_, ?_, rfl, rfl⟩
    · intro e he
      exact (mem_pyFilter (List.mem_of_mem_take he)).2
    · exact (List.take_sublist lim _).trans (pyFilter_sublist search listing)
  · intro listing platform arch lim
    refine ⟨List.length_take_le lim _, ?_, ?_, rfl, rfl⟩
    · intro p hp
      have h2 := mem_pyFilter (List.mem_of_mem_take hp)
      have h1 := mem_pyFilter h2.1
      exact ⟨h1.2, h2.2⟩
    · exact (List.take_sublist lim _).trans
        ((pyFilter_sublist arch _).trans (pyFilter_sublist platform listing))

/-- Concrete instance of C7: the filters evaluated on explicit listings,
discharging the membership hypotheses at particular returned names. -/
theorem C7_listing_filters_witness :
    pyIn "smb".toList "exploit/windows/SMB/psexec".toList = true ∧
    pyIn "win".toList "windows/x64/meterpreter/reverse_tcp".toList = true := by
  constructor
  · exact (C7_listing_filters.1 ["exploit/windows/SMB/psexec".toList]
      "smb".toList 5).2.1 _ (by decide)
  · exact ((C7_listing_filters.2 ["windows/x64/meterpreter/reverse_tcp".toList]
      "win".toList "x64".toList 5).2.1 _ (by decide)).1

theorem rhostsCount_append (l1 l2 : List MEvent) :
    rhostsCount (l1 ++ l2) = rhostsCount l1 + rhostsCount l2 := by
  simp [rhostsCount, List.filter_append]

theorem setsKeyOn_append (l1 l2 : List MEvent) (c m k : String) :
    setsKeyOn (l1 ++ l2) c m k = (setsKeyOn l1 c m k || setsKeyOn l2 c m k) := by
  simp [setsKeyOn]

/-- The options loop contributes one RHOSTS assignment per `RHOSTS` key in
the caller's options dict. -/
theorem rhostsCount_map_setOpts (modName : String) (opts : List (String × Scalar)) :
    rhostsCount (opts.map (fun kv => MEvent.setOpt "exploit" modName kv.1 kv.2))
      = (opts.filter (fun kv => kv.1 == "RHOSTS")).length := by
  induction opts with
  | nil => rfl
  | cons kv rest ih =>
    by_cases hk : (kv.1 == "RHOSTS") = true <;>
      simp [rhostsCount, List.filter_cons, MEvent.isRhostsSet, hk] at ih ⊢ <;>
      exact ih

/-- If no options entry has key `k`, the options loop sets no `k` on the
module. -/
theorem setsKeyOn_map_none (modName k : String) (opts : List (String × Scalar)) :
    (opts.filter (fun kv => kv.1 == k)).length = 0 →
    setsKeyOn (opts.map (fun kv => MEvent.setOpt "exploit" modName kv.1 kv.2))
      "exploit" modName k = false := by
  induction opts with
  | nil => intro _; rfl
  | cons kv rest ih =>
    intro hno
    rw [List.filter_cons] at hno
    by_cases hk : (kv.1 == k) = true
    · rw [if_pos hk] at hno
      simp at hno
    · rw [if_neg hk] at hno
      have hrest := ih hno
      simp [setsKeyOn, MEvent.matchesSet, hk] at hrest ⊢
      exact hrest

/-! ## Claim C8 -/

/-- **C8 (counterexample).** The claim "with `exploit_name` equal to
`multi/handler` run_exploit never issues an RHOSTS assignment, for every
argument bag" is false: a caller-supplied `options` entry with key
`RHOSTS` is applied to the exploit module in the options loop, so this
concrete bag produces one RHOSTS assignment on `multi/handler`. -/
theorem C8_rhosts_counterexample :
    decide (rhostsCount (run_exploit_trace "multi/handler" "10.0.0.5"
      "windows/meterpreter/reverse_tcp" (.sStr "192.168.1.2") (.sInt 4444)
      [("RHOSTS", .sStr "10.0.0.9")]) = 0) = false := by decide

/-- **C8 (amended).** For every argument bag, the number of RHOSTS
assignments `run_exploit` issues is `(1 if exploit_name ≠ "multi/handler"
else 0)` plus one per `RHOSTS` key in the caller's `options`; in
particular with no `RHOSTS` option it is exactly one for a non-handler
exploit and zero for `multi/handler`.  All assignments precede execution:
the final trace event is the execute with the payload attached. -/
theorem C8_rhosts_assignment_amended :
    ∀ (e t p : String) (lh lp : Scalar) (opts : List (String × Scalar)),
      rhostsCount (run_exploit_trace e t p lh lp opts)
        = (if e = "multi/handler" then 0 else 1)
          + (opts.filter (fun kv => kv.1 == "RHOSTS")).length ∧
      (run_exploit_trace e t p lh lp opts).getLast?
        = some (.exec e (some p)) := by
  intro e t p lh lp opts
  have h1 : rhostsCount [MEvent.use "exploit" e] = 0 := rfl
  have h2 : rhostsCount [MEvent.setOpt "exploit" e "LHOST" lh,
      MEvent.setOpt "exploit" e "LPORT" lp] = 0 := rfl
  have h3 : rhostsCount [MEvent.setOpt "exploit" e "RHOSTS" (.sStr t)] = 1 := rfl
  have h4 : rhostsCount [MEvent.use "payload" p, MEvent.setOpt "payload" p "LHOST" lh,
      MEvent.setOpt "payload" p "LPORT" lp] = 0 := rfl
  have h5 : rhostsCount [MEvent.exec e (some p)] = 0 := rfl
  constructor
  · unfold run_exploit_trace
    rw [rhostsCount_append, rhostsCount_append, rhostsCount_append,
      rhostsCount_append, rhostsCount_append, rhostsCount_map_setOpts,
      h1, h2, h4, h5]
    by_cases he : e = "multi/handler"
    · rw [if_pos he, if_pos he]
      simp [rhostsCount]
    · rw [if_neg he, if_neg he, h3]
      omega
  · unfold run_exploit_trace
    exact List.getLast?_concat _

/-! ## Claim C5 -/

/-- **C5 (counterexample).** The claim that `start_handler` "sets local
host/port on both the listener exploit module and the separately-selected
payload module" is false: with an empty `options` bag the trace contains
no `LHOST` (and no `LPORT`) assignment on the `multi/handler` exploit
module — only the payload module gets them. -/
theorem C5_handler_lhost_counterexample :
    setsKeyOn (start_handler_trace "windows/meterpreter/reverse_tcp"
      (.sStr "192.168.1.2") (.sInt 4444) []) "exploit" "multi/handler" "LHOST"
      = false ∧
    setsKeyOn (start_handler_trace "windows/meterpreter/reverse_tcp"
      (.sStr "192.168.1.2") (.sInt 4444) []) "exploit" "multi/handler" "LPORT"
      = false ∧
    setsKeyOn (start_handler_trace "windows/meterpreter/reverse_tcp"
      (.sStr "192.168.1.2") (.sInt 4444) []) "payload"
      "windows/meterpreter/reverse_tcp" "LHOST" = true := by decide

/-- **C5 (amended).** `start_handler` is pinned to the generic listener
module (`multi/handler` is selected first) and has no target field; it
selects the payload module separately and sets local host/port on the
payload module only — not on the handler exploit module, unless the
caller's own `options` contain such a key — applies the caller's options
to the handler module, and executes the handler with the payload attached
as the final step. -/
theorem C5_start_handler_shape_amended :
    ∀ (p : String) (lh lp : Scalar) (opts : List (String × Scalar)),
      (start_handler_trace p lh lp opts).head?
        = some (.use "exploit" "multi/handler") ∧
      setsKeyOn (start_handler_trace p lh lp opts) "payload" p "LHOST" = true ∧
      setsKeyOn (start_handler_trace p lh lp opts) "payload" p "LPORT" = true ∧
      rhostsCount (start_handler_trace p lh lp opts)
        = (opts.filter (fun kv => kv.1 == "RHOSTS")).length ∧
      ((opts.filter (fun kv => kv.1 == "LHOST")).length = 0 →
        setsKeyOn (start_handler_trace p lh lp opts) "exploit" "multi/handler"
          "LHOST" = false) ∧
      (start_handler_trace p lh lp opts).getLast?
        = some (.exec "multi/handler" (some p)) := by
  intro p lh lp opts
  have hpre : setsKeyOn [MEvent.use "exploit" "multi/handler",
      MEvent.use "payload" p, MEvent.setOpt "payload" p "LHOST" lh,
      MEvent.setOpt "payload" p "LPORT" lp] "exploit" "multi/handler" "LHOST"
      = false := rfl
  have hexec : setsKeyOn [MEvent.exec "multi/handler" (some p)]
      "exploit" "multi/handler" "LHOST" = false := rfl
  refine ⟨rfl, ?_, ?_, ?_, ?_, ?_⟩
  · simp [setsKeyOn, start_handler_trace, MEvent.matchesSet]
  · simp [setsKeyOn, start_handler_trace, MEvent.matchesSet]
  · unfold start_handler_trace
    rw [rhostsCount_append, rhostsCount_append, rhostsCount_map_setOpts]
    have ha : rhostsCount [MEvent.use "exploit" "multi/handler",
        MEvent.use "payload" p, MEvent.setOpt "payload" p "LHOST" lh,
        MEvent.setOpt "payload" p "LPORT" lp] = 0 := rfl
    have hb : rhostsCount [MEvent.exec "multi/handler" (some p)] = 0 := rfl
    rw [ha, hb]
    omega
  · intro hno
    unfold start_handler_trace
    rw [setsKeyOn_append, setsKeyOn_append,
      setsKeyOn_map_none "multi/handler" "LHOST" opts hno, hpre, hexec]
    rfl
  · unfold start_handler_trace
    exact List.getLast?_concat _

/-- Concrete instance of the amended C5, discharging its hypothesis (no
caller-supplied `LHOST` option) on an explicit call. -/
theorem C5_start_handler_shape_witness :
    setsKeyOn (start_handler_trace "windows/meterpreter/reverse_tcp"
      (.sStr "10.1.1.1") (.sInt 8443) [("ExitOnSession", .sBool false)])
      "exploit" "multi/handler" "LHOST" = false :=
  (C5_start_handler_shape_amended "windows/meterpreter/reverse_tcp"
    (.sStr "10.1.1.1") (.sInt 8443)
    [("ExitOnSession", .sBool false)]).2.2.2.2.1 (by decide)

/-! ## Claim C6 -/

/-- **C6 (counterexample).** The claim that the reported `size` always
equals the number of bytes written is false: when `payload_generate`
returns a `str` containing a non-ASCII character, `len(payload_data)`
counts characters while the file receives the UTF-8 encoding.  Here a
one-character string is reported as `size = 1` but two bytes are
written. -/
theorem C6_size_counterexample :
    (generate_payload 1700000000 "raw" (.str ['é'])).size = 1 ∧
    (generate_payload 1700000000 "raw" (.str ['é'])).fileContents.length = 2 ∧
    decide ((generate_payload 1700000000 "raw" (.str ['é'])).size
      = (generate_payload 1700000000 "raw" (.str ['é'])).fileContents.length)
      = false := by decide

/-- **C6 (amended).** For every successful `generate_payload` call the
path follows `/tmp/payload_<unix_time>.<format>`, the file contains exactly
the generated artifact's bytes (the UTF-8 encoding when the artifact is a
`str`), and the reported `size` is `len()` of the artifact: for `bytes`
artifacts this equals the exact number of bytes written; for `str`
artifacts it is the character count, which equals the bytes written only
when every character is ASCII. -/
theorem C6_generate_payload_amended :
    ∀ (now : Nat) (fmt : String) (bs : List Nat) (s : PyStr),
      (generate_payload now fmt (.bytes bs)).saved_to
        = "/tmp/" ++ ("payload_" ++ toString now ++ "." ++ fmt) ∧
      (generate_payload now fmt (.bytes bs)).fileContents = bs ∧
      (generate_payload now fmt (.bytes bs)).size
        = (generate_payload now fmt (.bytes bs)).fileContents.length ∧
      (generate_payload now fmt (.str s)).fileContents = (s.map utf8Bytes).flatten ∧
      (generate_payload now fmt (.str s)).size = s.length ∧
      ((∀ c ∈ s, c.toNat < 128) →
        (generate_payload now fmt (.str s)).size
          = (generate_payload now fmt (.str s)).fileContents.length) := by
  intro now fmt bs s
  refine ⟨rfl, rfl, rfl, rfl, rfl, ?_⟩
  intro hascii
  show s.length = ((s.map utf8Bytes).flatten).length
  induction s with
  | nil => rfl
  | cons c rest ih =>
    have hc : c.toNat < 128 := hascii c (List.mem_cons_self c rest)
    have hrest := ih (fun x hx => hascii x (List.mem_cons_of_mem c hx))
    have hone : utf8Bytes c = [c.toNat] := by
      unfold utf8Bytes
      rw [if_pos hc]
    simp [hone, hrest]

/-- Concrete instance of the amended C6: an all-ASCII `str` artifact, where
the reported size does equal the bytes written, discharging the ASCII
hypothesis. -/
theorem C6_generate_payload_witness :
    (generate_payload 1700000000 "raw" (.str "MZshellcode".toList)).size
      = (generate_payload 1700000000 "raw"
          (.str "MZshellcode".toList)).fileContents.length :=
  (C6_generate_payload_amended 1700000000 "raw" [] "MZshellcode".toList).2.2.2.2.2
    (by decide)

/-- **C10.** `stop_job` and `interact_session` coerce the caller's integer
id to its decimal string before the remote call (the remote argument is
`toString id`), and the response echoes the id back as that string — the
`job_id` / `session_id` field is a JSON string, never the caller's
integer. -/
theorem C10_id_coerced_to_string :
    (∀ (j : Int) (reply : JValue),
      (stop_job j reply).remoteArg = toString j ∧
      Bag.find (stop_job j reply).response "job_id" = some (.jStr (toString j)) ∧
      ((Bag.find (stop_job j reply).response "job_id").map JValue.isStr = some true) ∧
      ((Bag.find (stop_job j reply).response "job_id").map JValue.isInt = some false)) ∧
    (∀ (s : Int) (cmd out : String),
      (interact_session s cmd out).remoteSessionArg = toString s ∧
      Bag.find (interact_session s cmd out).response "session_id"
        = some (.jStr (toString s)) ∧
      ((Bag.find (interact_session s cmd out).response "session_id").map JValue.isInt
        = some false)) := by
  refine ⟨fun j reply => ⟨rfl, ?_, ?_, ?_⟩, fun s cmd out => ⟨rfl, ?_, ?_⟩⟩ <;>
    simp [stop_job, interact_session, Bag.find, JValue.isStr, JValue.isInt]

/-! ## Claim C1 -/

/-- **C1 (counterexample).** The claim that *every* operation's blocking
remote work is scheduled on a worker thread — so that a hung remote call
is abandoned at the 30-second deadline and the dispatcher stays
responsive — is false at `stop_job`: its `client.jobs.stop` call runs
directly on the event loop (not in `asyncio.to_thread`), and if that call
hangs the dispatcher never returns at all. -/
theorem C1_offload_counterexample :
    offloadsRemoteWork "stop_job" = false ∧
    handlerRemoteSteps "stop_job" = [RemoteStep.directCall] ∧
    hangOutcome "stop_job" RemoteStep.directCall = none := by decide

/-- **C1 (amended).** Every one of the twelve operations is awaited under
the fixed 30-second deadline whose timeout text names the operation and
the deadline value; the nine handlers that wrap their remote work in
`asyncio.to_thread` (all except `interact_session`, `stop_job` and
`run_post_module`) are abandoned at the deadline when the remote call
hangs, producing that timeout block with the loop free for the next
request — while for the other three a hung remote call blocks the event
loop and the deadline never fires. -/
theorem C1_timeout_offload_amended :
    ∀ name, name ∈ toolNames →
      timeoutMessage name
        = "Error: Tool " ++ (name ++ " timed out after 30 seconds") ∧
      (offloadsRemoteWork name = true →
        ∀ st ∈ handlerRemoteSteps name,
          hangOutcome name st = some [timeoutMessage name]) ∧
      (offloadsRemoteWork name
        = !(["interact_session", "stop_job", "run_post_module"].contains name)) := by
  intro name hname
  refine ⟨?_, ?_, ?_⟩
  · have hseg : (" timed out after " ++ (toString timeoutSeconds ++ " seconds")
        : String) = " timed out after 30 seconds" := by decide
    rw [timeoutMessage, String.append_assoc, String.append_assoc,
      String.append_assoc, hseg]
  · intro hoff st hst
    cases st with
    | toThread => rfl
    | directCall =>
      rw [offloadsRemoteWork, List.all_eq_true] at hoff
      have := hoff _ hst
      simp at this
  · have hall : ∀ x ∈ toolNames, offloadsRemoteWork x
        = !(["interact_session", "stop_job", "run_post_module"].contains x) := by
      decide
    exact hall name hname

/-- Concrete instance of the amended C1: `list_exploits` is in the
catalogue, offloads its remote work, and a hang in that work yields the
timeout block naming the operation and the 30-second deadline. -/
theorem C1_timeout_offload_witness :
    hangOutcome "list_exploits" RemoteStep.toThread
      = some [timeoutMessage "list_exploits"] :=
  ((C1_timeout_offload_amended "list_exploits" (by decide)).2.1 (by decide))
    RemoteStep.toThread (by decide)

/-! ## Claim C2 -/

/-- **C2 (counterexample).** The claim that dispatch of an unknown
operation never touches the Connection Holder is false: `client =
get_msf_client()` is the first statement of `handle_call_tool`, executed
before the name is examined, so even this unknown name touches the
holder (while still receiving the unknown-tool block). -/
theorem C2_unknown_tool_counterexample :
    (handle_call_tool (.ok 0) "frobnicate" [] (.succeeds "unused")).touchedHolder
      = true ∧
    (handle_call_tool (.ok 0) "frobnicate" [] (.succeeds "unused")).blocks
      = ["Unknown tool: frobnicate"] := by decide

/-- **C2 (amended).** For every operation name not in the twelve-entry
catalogue, dispatch returns the single block `"Unknown tool: <name>"`
without entering any handler or attempting any remote call — but
`get_msf_client` is invoked first on every request, so the Connection
Holder *is* touched even for unknown names. -/
theorem C2_unknown_tool_amended :
    ∀ (h : Nat) (name : String) (args : Bag) (remote : RemoteBehavior),
      toolNames.contains name = false →
      (handle_call_tool (.ok h) name args remote).blocks
        = ["Unknown tool: " ++ name] ∧
      (handle_call_tool (.ok h) name args remote).handlerEntered = false ∧
      (handle_call_tool (.ok h) name args remote).remoteAttempted = false ∧
      (handle_call_tool (.ok h) name args remote).touchedHolder = true := by
  intro h name args remote hn
  have hmem : ¬ (name ∈ toolNames) := by simpa using hn
  simp [handle_call_tool, hmem]

/-- Concrete instance of the amended C2 at an explicit unknown name. -/
theorem C2_unknown_tool_witness :
    (handle_call_tool (.ok 7) "scan_network" [] (.raises "boom")).blocks
      = ["Unknown tool: " ++ "scan_network"] :=
  (C2_unknown_tool_amended 7 "scan_network" [] (.raises "boom") (by decide)).1

/-! ## Claim C3 -/

/-- **C3 (counterexample).** The claim that a missing required field
never reaches the Connection Holder is false: `get_msf_client()` runs
before dispatch, so `run_exploit` invoked with an empty bag touches the
holder; the missing field then surfaces as the `KeyError`-derived block
`"Error: 'exploit_name'"` (and no remote call is attempted). -/
theorem C3_missing_field_counterexample :
    (handle_call_tool (.ok 0) "run_exploit" [] (.succeeds "unused")).touchedHolder
      = true ∧
    (handle_call_tool (.ok 0) "run_exploit" [] (.succeeds "unused")).blocks
      = ["Error: 'exploit_name'"] ∧
    (handle_call_tool (.ok 0) "run_exploit" [] (.succeeds "unused")).remoteAttempted
      = false := by decide

/-- **C3 (amended).** For every catalogue operation invoked with a
required field absent, the first missing field's `KeyError` escapes the
handler before any remote call is attempted and is converted to the
single block `"Error: '<field>'"` — but the Connection Holder has already
been invoked, since `get_msf_client()` precedes dispatch on every
call. -/
theorem C3_missing_field_amended :
    ∀ (h : Nat) (name : String) (args : Bag) (remote : RemoteBehavior)
      (f : String),
      toolNames.contains name = true →
      firstMissing name args = some f →
      (handle_call_tool (.ok h) name args remote).blocks
        = ["Error: '" ++ f ++ "'"] ∧
      (handle_call_tool (.ok h) name args remote).remoteAttempted = false ∧
      (handle_call_tool (.ok h) name args remote).touchedHolder = true := by
  intro h name args remote f hn hf
  have hmem : name ∈ toolNames := by simpa using hn
  simp [handle_call_tool, hmem, hf]

/-- Concrete instance of the amended C3: `run_exploit` with only
`exploit_name` supplied is missing `target` first. -/
theorem C3_missing_field_witness :
    (handle_call_tool (.ok 3) "run_exploit"
      [("exploit_name", .jStr "windows/smb/ms17_010_eternalblue")]
      (.succeeds "unused")).blocks = ["Error: '" ++ "target" ++ "'"] :=
  (C3_missing_field_amended 3 "run_exploit"
    [("exploit_name", .jStr "windows/smb/ms17_010_eternalblue")]
    (.succeeds "unused") "target" (by decide) (by decide)).1

/-! ## Claim C4 -/

/-- A boolean prefix of a list is still a prefix after appending a
suffix. -/
theorem isPrefixOf_append (p l m : List Char) (h : p.isPrefixOf l = true) :
    p.isPrefixOf (l ++ m) = true := by
  rw [List.isPrefixOf_iff_prefix] at h ⊢
  exact h.trans (List.prefix_append l m)

/-- **C4 (counterexample).** The claim that every failure is converted to
a text block of the exact form `"Error: <message>"` is false: a remote
failure caught inside `list_exploits`'s own `except` clause produces
`"Error listing exploits: boom"`, which does not begin with
`"Error: "`. -/
theorem C4_error_form_counterexample :
    (handle_call_tool (.ok 0) "list_exploits" [] (.raises "boom")).blocks
      = ["Error listing exploits: boom"] ∧
    ("Error: ".toList.isPrefixOf "Error listing exploits: boom".toList)
      = false := by decide

/-- **C4 (amended).** Every failure is caught and converted to a single
text block before leaving the dispatcher — a raised connection failure
and an escaped `KeyError` become exactly `"Error: <message>"` at the
outer `except`, and a timeout becomes `"Error: Tool <name> timed out
after 30 seconds"`; a failure caught inside a handler's own `except`
becomes `"Error <context>: <message>"`, which begins with `"Error"` but
not with `"Error: "`.  No raw exception propagates: the outcome always
consists of the handler's block or exactly one error block. -/
theorem C4_error_conversion_amended :
    ∀ (name : String) (args : Bag) (h : Nat) (m : String)
      (conn : Except String Nat) (remote : RemoteBehavior),
      (handle_call_tool (.error m) name args remote).blocks
        = ["Error: " ++ m] ∧
      ("Error: ".toList.isPrefixOf (timeoutMessage name).toList = true) ∧
      (toolNames.contains name = true → firstMissing name args = none →
        (handle_call_tool (.ok h) name args (.raises m)).blocks
          = [handlerCatchText name ++ m] ∧
        ("Error".toList.isPrefixOf (handlerCatchText name ++ m).toList
          = true)) ∧
      ((handle_call_tool conn name args remote).blocks.length = 1 ∨
        ∃ r, remote = .succeeds r ∧
          (handle_call_tool conn name args remote).blocks = [r]) := by
  intro name args h m conn remote
  refine ⟨?_, ?_, ?_, ?_⟩
  · rfl
  · rfl
  · intro hn hf
    constructor
    · have hmem : name ∈ toolNames := by simpa using hn
      simp [handle_call_tool, hmem, hf]
    · have hforms : ∀ x ∈ toolNames,
          "Error".toList.isPrefixOf (handlerCatchText x).toList = true := by
        decide
      have hmem : name ∈ toolNames := by simpa using hn
      have hpre := hforms name hmem
      have hsplit : (handlerCatchText name ++ m).toList
          = (handlerCatchText name).toList ++ m.toList := by
        simp [String.toList]
      rw [hsplit]
      exact isPrefixOf_append _ _ _ hpre
  · cases conn with
    | error e => left; rfl
    | ok hh =>
      by_cases hn : name ∈ toolNames
      · cases hf : firstMissing name args with
        | some f => left; simp [handle_call_tool, hn, hf]
        | none =>
          cases remote with
          | succeeds r =>
            right
            exact ⟨r, rfl, by simp [handle_call_tool, hn, hf]⟩
          | raises mm => left; simp [handle_call_tool, hn, hf]
      · left; simp [handle_call_tool, hn]

/-- Concrete instance of the amended C4 at an explicit failing call. -/
theorem C4_error_conversion_witness :
    (handle_call_tool (.ok 1) "list_jobs" [] (.raises "connection reset")).blocks
      = [handlerCatchText "list_jobs" ++ "connection reset"] :=
  ((C4_error_conversion_amended "list_jobs" [] 1 "connection reset"
    (.ok 1) (.raises "connection reset")).2.2.1 (by decide) (by decide)).1

end MsfMcp
